import Mathlib

/-!
Shallow embedding of the vpn-service backend core, for checking the
specification claims against the code.

Embedded source files:
  * package wireguard (peer manager): PeerConfig, CreatePeer, CreateDynamicPeer,
    RemovePeer, RemoveDynamicPeer, GetPeer, GetPeers, GenerateConfig,
    savePeerConfig, getPeerConfig, deletePeerConfig, allocateIP,
    generateKeyPair, getConfigTemplate, replaceConfigPlaceholders.
  * package core (part_013 variant): Server, ServerManager (assoc map of
    servers keyed by id), UpdateServerLoad, GetServer, and the VPNManager
    orchestration Connect / Disconnect / DynamicConnect / DynamicDisconnect.
  * package core (backend/src/core variant): Server with Capacity,
    GetServersByCountry, GetOptimalServer.

Modelling conventions: the peer metadata directory tree
(configDir/userID/peerID/metadata.json) is a list of peer records keyed by
(userID, id), one list per namespace (static / dynamic); machine int is
Int; Go errors are Except String; time.Now and utils.GenerateUUID are read
from an explicit oracle, one index per peer-manager mutation.
-/

/-- The WireGuard section of config.Config (fields used by the peer code). -/
structure WireGuardConfig where
  configDir : String
  dynamicPeerDir : String
  listenPort : Int
  privateKey : String
  publicKey : String
  address : String
  dns : String
  serverIP : String
  serverEndpoint : String
  allowedIPs : String
deriving DecidableEq, Repr

/-- config.Config restricted to what the embedded code reads. -/
structure Config where
  wireGuard : WireGuardConfig
deriving DecidableEq, Repr

/-- wireguard.PeerConfig: one peer record, with the same fields and the same
JSON field names as the Go struct (timestamps as abstract Nat instants). -/
structure PeerConfig where
  id : String
  userID : String
  serverID : String
  deviceType : String
  deviceName : String
  publicKey : String
  privateKey : String
  ip : String
  serverIP : String
  createdAt : Nat
  updatedAt : Nat
  dynamic : Bool
deriving DecidableEq, Repr

/-- The on-disk peer metadata tree: one record list per namespace, a record
standing for configDir/userID/peerID/metadata.json. -/
structure PeerStore where
  static : List PeerConfig
  dynamic : List PeerConfig
deriving DecidableEq, Repr

/-- wireguard.PeerManager: the manager only carries the configuration. -/
structure PeerManager where
  config : Config
deriving DecidableEq, Repr

/-- wireguard.NewPeerManager: creates the config directories (a filesystem
side effect with no bearing on peer records) and wraps the config.  It reads
nothing from any existing PeerStore. -/
def NewPeerManager (cfg : Config) : PeerManager :=
  { config := cfg }

/-- Oracle for the effectful primitives the peer code calls:
utils.GenerateUUID, time.Now, and the outcome of applying the configuration
to the tunnel interface, each indexed by a mutation counter.
The applyOk component is modelled from the spec: InterfaceApplier.Reconcile
is a fallible external call; the src stub applyConfiguration only logs and
always returns nil, so a run of the source corresponds to an oracle with
applyOk constantly true. -/
structure Oracle where
  uuids : Nat → String
  now : Nat → Nat
  applyOk : Nat → Bool

/-- Peer-manager state: the metadata tree plus the oracle cursor. -/
structure PMState where
  store : PeerStore
  tick : Nat
deriving Repr

/-- wireguard.generateKeyPair: returns the hardcoded mock key pair
(source comment: a real implementation would use wg-quick). -/
def generateKeyPair : String × String :=
  ("YAnV4SnPYEA+jS6nQtxF5lS3jj0gqXBVVeP9tz/bP2A=",
   "zzz3UBcqiV9RsYCzJWOU5VVVNk3VtQECQXXPnQiEfQQ=")

/-- wireguard.PeerManager.allocateIP: returns the hardcoded mock address
(source comment: a real implementation would allocate from a pool).  The
receiver is unused by the source body. -/
def allocateIP (_pm : PeerManager) : String :=
  "10.0.0.2/32"

/-- Key match for one metadata path: same user directory and peer directory. -/
def peerKeyMatches (userID peerID : String) (p : PeerConfig) : Bool :=
  p.userID == userID && p.id == peerID

/-- wireguard.PeerManager.getPeerConfig: read the static-namespace record at
(userID, peerID), peer-not-found when the path does not exist. -/
def getPeerConfig (store : PeerStore) (userID peerID : String) : Option PeerConfig :=
  store.static.find? (peerKeyMatches userID peerID)

/-- wireguard.PeerManager.getDynamicPeerConfig: dynamic-namespace read. -/
def getDynamicPeerConfig (store : PeerStore) (userID peerID : String) : Option PeerConfig :=
  store.dynamic.find? (peerKeyMatches userID peerID)

/-- wireguard.PeerManager.savePeerConfig: write metadata.json at the static
path of the peer, overwriting any record at the same path. -/
def savePeerConfig (store : PeerStore) (peer : PeerConfig) : PeerStore :=
  { store with static :=
      store.static.filter (fun q => !(peerKeyMatches peer.userID peer.id q)) ++ [peer] }

/-- wireguard.PeerManager.saveDynamicPeerConfig: dynamic-namespace write. -/
def saveDynamicPeerConfig (store : PeerStore) (peer : PeerConfig) : PeerStore :=
  { store with dynamic :=
      store.dynamic.filter (fun q => !(peerKeyMatches peer.userID peer.id q)) ++ [peer] }

/-- wireguard.PeerManager.deletePeerConfig: remove the static peer directory;
errors when the directory does not exist. -/
def deletePeerConfig (store : PeerStore) (peer : PeerConfig) : Option PeerStore :=
  if store.static.any (peerKeyMatches peer.userID peer.id) then
    some { store with static :=
      store.static.filter (fun q => !(peerKeyMatches peer.userID peer.id q)) }
  else
    none

/-- wireguard.PeerManager.deleteDynamicPeerConfig: dynamic-namespace delete. -/
def deleteDynamicPeerConfig (store : PeerStore) (peer : PeerConfig) : Option PeerStore :=
  if store.dynamic.any (peerKeyMatches peer.userID peer.id) then
    some { store with dynamic :=
      store.dynamic.filter (fun q => !(peerKeyMatches peer.userID peer.id q)) }
  else
    none

/-- wireguard.PeerManager.CreatePeer: generate id, key pair and address,
build the record, save it, then apply the configuration.  On apply failure
the already-saved record is left in the store and an error is returned. -/
def CreatePeer (env : Oracle) (pm : PeerManager) (st : PMState)
    (userID serverID deviceType deviceName : String) :
    Except String PeerConfig × PMState :=
  let peerID := env.uuids st.tick
  let keys := generateKeyPair
  let ip := allocateIP pm
  let peer : PeerConfig :=
    { id := peerID, userID := userID, serverID := serverID,
      deviceType := deviceType, deviceName := deviceName,
      publicKey := keys.2, privateKey := keys.1, ip := ip,
      serverIP := pm.config.wireGuard.serverIP,
      createdAt := env.now st.tick, updatedAt := env.now st.tick,
      dynamic := false }
  let st1 : PMState := { store := savePeerConfig st.store peer, tick := st.tick + 1 }
  if env.applyOk st.tick then
    (Except.ok peer, st1)
  else
    (Except.error "failed to apply configuration", st1)

/-- wireguard.PeerManager.CreateDynamicPeer: as CreatePeer, in the dynamic
namespace and with the dynamic flag set. -/
def CreateDynamicPeer (env : Oracle) (pm : PeerManager) (st : PMState)
    (userID serverID deviceType deviceName : String) :
    Except String PeerConfig × PMState :=
  let peerID := env.uuids st.tick
  let keys := generateKeyPair
  let ip := allocateIP pm
  let peer : PeerConfig :=
    { id := peerID, userID := userID, serverID := serverID,
      deviceType := deviceType, deviceName := deviceName,
      publicKey := keys.2, privateKey := keys.1, ip := ip,
      serverIP := pm.config.wireGuard.serverIP,
      createdAt := env.now st.tick, updatedAt := env.now st.tick,
      dynamic := true }
  let st1 : PMState := { store := saveDynamicPeerConfig st.store peer, tick := st.tick + 1 }
  if env.applyOk st.tick then
    (Except.ok peer, st1)
  else
    (Except.error "failed to apply configuration", st1)

/-- wireguard.PeerManager.RemovePeer: fetch the static record, delete its
directory, then apply the configuration.  The delete precedes the apply; a
failing apply leaves the record already deleted. -/
def RemovePeer (env : Oracle) (st : PMState) (userID peerID : String) :
    Except String Unit × PMState :=
  match getPeerConfig st.store userID peerID with
  | none => (Except.error "failed to get peer config", st)
  | some peer =>
    match deletePeerConfig st.store peer with
    | none => (Except.error "failed to delete peer config", st)
    | some store1 =>
      let st1 : PMState := { store := store1, tick := st.tick + 1 }
      if env.applyOk st.tick then
        (Except.ok (), st1)
      else
        (Except.error "failed to apply configuration", st1)

/-- wireguard.PeerManager.RemoveDynamicPeer: dynamic-namespace removal, the
same delete-then-apply order. -/
def RemoveDynamicPeer (env : Oracle) (st : PMState) (userID peerID : String) :
    Except String Unit × PMState :=
  match getDynamicPeerConfig st.store userID peerID with
  | none => (Except.error "failed to get dynamic peer config", st)
  | some peer =>
    match deleteDynamicPeerConfig st.store peer with
    | none => (Except.error "failed to delete dynamic peer config", st)
    | some store1 =>
      let st1 : PMState := { store := store1, tick := st.tick + 1 }
      if env.applyOk st.tick then
        (Except.ok (), st1)
      else
        (Except.error "failed to apply configuration", st1)

/-- wireguard.PeerManager.GetPeer: try the static namespace first, then the
dynamic namespace. -/
def GetPeer (store : PeerStore) (userID peerID : String) : Option PeerConfig :=
  match getPeerConfig store userID peerID with
  | some peer => some peer
  | none => getDynamicPeerConfig store userID peerID

/-- wireguard.PeerManager.getStaticPeers: list the user directory in the
static namespace; a missing directory (no records for this user) yields the
empty list with no error. -/
def getStaticPeers (store : PeerStore) (userID : String) : List PeerConfig :=
  store.static.filter (fun p => p.userID == userID)

/-- wireguard.PeerManager.getDynamicPeers: dynamic-namespace listing. -/
def getDynamicPeers (store : PeerStore) (userID : String) : List PeerConfig :=
  store.dynamic.filter (fun p => p.userID == userID)

/-- wireguard.PeerManager.GetPeers: static peers followed by dynamic peers. -/
def GetPeers (store : PeerStore) (userID : String) : Except String (List PeerConfig) :=
  Except.ok (getStaticPeers store userID ++ getDynamicPeers store userID)

/-- Go strings.ToLower on the ASCII device-type names. -/
def goToLower (s : String) : String :=
  String.mk (s.data.map Char.toLower)

/-- wireguard template-file choice: the switch over the lowered device type. -/
def templateFileFor (deviceType : String) : String :=
  let lowered := goToLower deviceType
  if lowered == "android" then "android.conf"
  else if lowered == "ios" || lowered == "iphone" || lowered == "ipad" then "ios.conf"
  else if lowered == "windows" then "windows.conf"
  else if lowered == "mac" || lowered == "macos" then "mac.conf"
  else "generic.conf"

/-- wireguard.getConfigTemplate: map the device type to a template file and
read it; the template directory contents are an explicit parameter. -/
def getConfigTemplate (templates : List (String × String)) (deviceType : String) :
    Except String String :=
  match templates.lookup (templateFileFor deviceType) with
  | some content => Except.ok content
  | none => Except.error "failed to read template file"

/-- Left-to-right scan replacing each non-overlapping occurrence of pat by
rep, with fuel bounding the number of steps (the input length suffices,
every step consumes at least one character when pat is nonempty). -/
def replaceFuel (pat rep : List Char) : Nat → List Char → List Char
  | 0, s => s
  | _ + 1, [] => []
  | fuel + 1, c :: rest =>
    if pat.isPrefixOf (c :: rest) then
      rep ++ replaceFuel pat rep fuel ((c :: rest).drop pat.length)
    else
      c :: replaceFuel pat rep fuel rest

/-- Go strings.ReplaceAll: replace every non-overlapping occurrence, scanning
left to right (the placeholder patterns used here are never empty). -/
def goReplaceAll (s pat rep : String) : String :=
  if pat.length == 0 then s
  else String.mk (replaceFuel pat.data rep.data s.data.length s.data)

/-- wireguard.replaceConfigPlaceholders: replace every occurrence of each
\x7b\x7bKEY\x7d\x7d placeholder by its value, one key after the other. -/
def replaceConfigPlaceholders (template : String) (replacements : List (String × String)) :
    String :=
  replacements.foldl
    (fun result kv => goReplaceAll result ("\x7b\x7b" ++ kv.1 ++ "\x7d\x7d") kv.2) template

/-- wireguard.PeerManager.GenerateConfig: render the device template with the
peer fields and the server public attributes from the configuration. -/
def GenerateConfig (templates : List (String × String)) (pm : PeerManager)
    (peer : PeerConfig) : Except String String :=
  match getConfigTemplate templates peer.deviceType with
  | Except.error e => Except.error e
  | Except.ok template =>
    Except.ok (replaceConfigPlaceholders template
      [("PRIVATE_KEY", peer.privateKey),
       ("CLIENT_IP", peer.ip),
       ("SERVER_PUBLIC_KEY", pm.config.wireGuard.publicKey),
       ("SERVER_ENDPOINT", pm.config.wireGuard.serverEndpoint ++ ":" ++
          toString pm.config.wireGuard.listenPort),
       ("DNS", pm.config.wireGuard.dns),
       ("ALLOWED_IPS", pm.config.wireGuard.allowedIPs),
       ("PERSISTENT_KEEPALIVE", "25")])

/-- core.Server (part_013 variant): no capacity field. -/
structure Server013 where
  id : String
  name : String
  location : String
  ip : String
  status : String
  load : Int
deriving DecidableEq, Repr

/-- core.ServerManager state (part_013 variant): the servers map, as an
association list keyed by server id. -/
structure SM013 where
  servers : List (String × Server013)
deriving DecidableEq, Repr

/-- core.ServerManager.GetServer (part_013 variant). -/
def GetServer013 (sm : SM013) (id : String) : Except String Server013 :=
  match sm.servers.lookup id with
  | some server => Except.ok server
  | none => Except.error "server not found"

/-- Map-entry update helper for the servers association list. -/
def setServerLoad (servers : List (String × Server013)) (id : String) (load : Int) :
    List (String × Server013) :=
  servers.map (fun kv => if kv.1 == id then (kv.1, { kv.2 with load := load }) else kv)

/-- core.ServerManager.UpdateServerLoad (part_013 variant): sets the load
field to the given absolute value; unknown id is an error. -/
def UpdateServerLoad013 (sm : SM013) (id : String) (load : Int) :
    Except String Unit × SM013 :=
  if sm.servers.any (fun kv => kv.1 == id) then
    (Except.ok (), { servers := setServerLoad sm.servers id load })
  else
    (Except.error "server not found", sm)

/-- Whole-system state for the orchestrator: server registry plus the peer
manager state. -/
structure VPNState where
  sm : SM013
  pm : PMState
deriving Repr

/-- core.VPNManager.Connect: get the server, require status online, create
the peer, render its configuration, then set the server load to the value
read before peer creation plus one (the UpdateServerLoad error is ignored by
the source). -/
def Connect (env : Oracle) (templates : List (String × String)) (pmgr : PeerManager)
    (st : VPNState) (userID serverID deviceType deviceName : String) :
    Except String (PeerConfig × String) × VPNState :=
  match GetServer013 st.sm serverID with
  | Except.error _ => (Except.error "server not found", st)
  | Except.ok server =>
    if server.status != "online" then
      (Except.error "server is not online", st)
    else
      match CreatePeer env pmgr st.pm userID serverID deviceType deviceName with
      | (Except.error e, pm1) =>
        (Except.error ("failed to create peer: " ++ e), { st with pm := pm1 })
      | (Except.ok peer, pm1) =>
        match GenerateConfig templates pmgr peer with
        | Except.error e =>
          (Except.error ("failed to generate configuration: " ++ e), { st with pm := pm1 })
        | Except.ok config =>
          let sm1 := (UpdateServerLoad013 st.sm serverID (server.load + 1)).2
          (Except.ok (peer, config), { sm := sm1, pm := pm1 })

/-- core.VPNManager.Disconnect: look the peer up (either namespace), remove
it from the static namespace, then set the load of the server the peer
referenced to the absolute value 0. -/
def Disconnect (env : Oracle) (st : VPNState) (userID peerID : String) :
    Except String Unit × VPNState :=
  match GetPeer st.pm.store userID peerID with
  | none => (Except.error "peer not found", st)
  | some peer =>
    match RemovePeer env st.pm userID peerID with
    | (Except.error e, pm1) =>
      (Except.error ("failed to remove peer: " ++ e), { st with pm := pm1 })
    | (Except.ok _, pm1) =>
      let sm1 := (UpdateServerLoad013 st.sm peer.serverID 0).2
      (Except.ok (), { sm := sm1, pm := pm1 })

/-- core.VPNManager.DynamicConnect: the dynamic-namespace analogue of
Connect. -/
def DynamicConnect (env : Oracle) (templates : List (String × String)) (pmgr : PeerManager)
    (st : VPNState) (userID serverID deviceType deviceName : String) :
    Except String (PeerConfig × String) × VPNState :=
  match GetServer013 st.sm serverID with
  | Except.error _ => (Except.error "server not found", st)
  | Except.ok server =>
    if server.status != "online" then
      (Except.error "server is not online", st)
    else
      match CreateDynamicPeer env pmgr st.pm userID serverID deviceType deviceName with
      | (Except.error e, pm1) =>
        (Except.error ("failed to create dynamic peer: " ++ e), { st with pm := pm1 })
      | (Except.ok peer, pm1) =>
        match GenerateConfig templates pmgr peer with
        | Except.error e =>
          (Except.error ("failed to generate configuration: " ++ e), { st with pm := pm1 })
        | Except.ok config =>
          let sm1 := (UpdateServerLoad013 st.sm serverID (server.load + 1)).2
          (Except.ok (peer, config), { sm := sm1, pm := pm1 })

/-- core.VPNManager.DynamicDisconnect: looks the peer up in either namespace,
removes it from the dynamic namespace, then sets its server load to 0. -/
def DynamicDisconnect (env : Oracle) (st : VPNState) (userID peerID : String) :
    Except String Unit × VPNState :=
  match GetPeer st.pm.store userID peerID with
  | none => (Except.error "peer not found", st)
  | some peer =>
    match RemoveDynamicPeer env st.pm userID peerID with
    | (Except.error e, pm1) =>
      (Except.error ("failed to remove dynamic peer: " ++ e), { st with pm := pm1 })
    | (Except.ok _, pm1) =>
      let sm1 := (UpdateServerLoad013 st.sm peer.serverID 0).2
      (Except.ok (), { sm := sm1, pm := pm1 })

/-- One orchestrator operation, for reasoning about call sequences. -/
inductive VPNOp where
  | connect (userID serverID deviceType deviceName : String)
  | disconnect (userID peerID : String)
  | dynamicConnect (userID serverID deviceType deviceName : String)
  | dynamicDisconnect (userID peerID : String)
deriving DecidableEq, Repr

/-- Apply one orchestrator operation, keeping only the state. -/
def stepOp (env : Oracle) (templates : List (String × String)) (pmgr : PeerManager)
    (st : VPNState) : VPNOp → VPNState
  | VPNOp.connect u s dt dn => (Connect env templates pmgr st u s dt dn).2
  | VPNOp.disconnect u p => (Disconnect env st u p).2
  | VPNOp.dynamicConnect u s dt dn => (DynamicConnect env templates pmgr st u s dt dn).2
  | VPNOp.dynamicDisconnect u p => (DynamicDisconnect env st u p).2

/-- Run a sequence of orchestrator operations. -/
def runOps (env : Oracle) (templates : List (String × String)) (pmgr : PeerManager)
    (st : VPNState) (ops : List VPNOp) : VPNState :=
  ops.foldl (stepOp env templates pmgr) st

/-- core.Server (backend/src/core variant): includes Capacity. -/
structure ServerB where
  id : String
  name : String
  country : String
  city : String
  ip : String
  load : Int
  capacity : Int
  status : String
deriving DecidableEq, Repr

/-- core.ServerManager.GetServersByCountry (backend/src/core variant): every
server whose Country equals the argument, status not consulted.  The server
list stands for one iteration order of the Go servers map. -/
def GetServersByCountry (servers : List ServerB) (country : String) : List ServerB :=
  servers.filter (fun s => s.country == country)

/-- One step of the lowest-load scan in GetOptimalServer: skip servers at
capacity, otherwise take the server when the tracked lowestLoad is still -1
or the server load is strictly lower. -/
def optimalStep (acc : Option ServerB × Int) (s : ServerB) : Option ServerB × Int :=
  if s.load ≥ s.capacity then acc
  else if acc.2 == -1 || s.load < acc.2 then (some s, s.load) else acc

/-- core.ServerManager.GetOptimalServer (backend/src/core variant): when a
country is given, candidates are the servers of that country (any status),
falling back to all online servers only when that country has no servers at
all; with no country, candidates are all online servers.  Among candidates,
scan for the lowest load, skipping servers at capacity. -/
def GetOptimalServer (servers : List ServerB) (country : String) :
    Except String ServerB :=
  let candidates :=
    if country != "" then
      let byCountry := GetServersByCountry servers country
      if byCountry.isEmpty then
        servers.filter (fun s => s.status == "online")
      else
        byCountry
    else
      servers.filter (fun s => s.status == "online")
  if candidates.isEmpty then
    Except.error "no available servers"
  else
    match (candidates.foldl optimalStep (none, -1)).1 with
    | none => Except.error "all servers are at capacity"
    | some s => Except.ok s

/-- The first of the four servers installed by the core.ServerManager initial
setup (backend/src/core variant). -/
def usEast1B : ServerB :=
  { id := "us-east-1", name := "US East (N. Virginia)", country := "United States",
    city := "Virginia", ip := "192.168.1.1", load := 0, capacity := 100,
    status := "online" }

/-- The second installed server. -/
def usWest1B : ServerB :=
  { id := "us-west-1", name := "US West (N. California)", country := "United States",
    city := "California", ip := "192.168.1.2", load := 0, capacity := 100,
    status := "online" }

/-- The third installed server. -/
def euWest1B : ServerB :=
  { id := "eu-west-1", name := "EU (Ireland)", country := "Ireland",
    city := "Dublin", ip := "192.168.1.3", load := 0, capacity := 100,
    status := "online" }

/-- The fourth installed server: under maintenance. -/
def apNortheast1B : ServerB :=
  { id := "ap-northeast-1", name := "Asia Pacific (Tokyo)", country := "Japan",
    city := "Tokyo", ip := "192.168.1.4", load := 0, capacity := 100,
    status := "maintenance" }

/-- The installed server list, in declaration order. -/
def defaultServersB : List ServerB :=
  [usEast1B, usWest1B, euWest1B, apNortheast1B]

/-- The JSON object produced for a wireguard.PeerConfig value, as the field
name / rendered value pairs dictated by the struct json tags. -/
def peerConfigJSONFields (p : PeerConfig) : List (String × String) :=
  [("id", p.id), ("userId", p.userID), ("serverId", p.serverID),
   ("deviceType", p.deviceType), ("deviceName", p.deviceName),
   ("publicKey", p.publicKey), ("privateKey", p.privateKey),
   ("ip", p.ip), ("serverIp", p.serverIP),
   ("createdAt", toString p.createdAt), ("updatedAt", toString p.updatedAt),
   ("dynamic", toString p.dynamic)]

/-- The JSON object written by api.ConnectHandler for a successful connect:
the ConnectResponse struct fields (config, qrCode, peerId, serverIp). -/
def connectResponseJSONFields (config qrCode peerID serverIP : String) :
    List (String × String) :=
  [("config", config), ("qrCode", qrCode), ("peerId", peerID), ("serverIp", serverIP)]

/-- The JSON object produced for a wireguard.PeerInfo value (the per-peer
record of the status endpoint), per the struct json tags. -/
def peerInfoJSONFields (id serverID serverName deviceType deviceName ip
    createdAt lastSeen bytesRx bytesTx : String) : List (String × String) :=
  [("id", id), ("serverId", serverID), ("serverName", serverName),
   ("deviceType", deviceType), ("deviceName", deviceName), ("ip", ip),
   ("createdAt", createdAt), ("lastSeen", lastSeen),
   ("bytesRx", bytesRx), ("bytesTx", bytesTx)]

/-- The JSON body written by the admin GetUserPeersHandler: the PeerConfig
records of the user serialized directly. -/
def getUserPeersResponseJSON (peers : List PeerConfig) : List (List (String × String)) :=
  peers.map peerConfigJSONFields

/-- Does a rendered JSON object carry a field of the given name. -/
def jsonHasField (fields : List (String × String)) (name : String) : Bool :=
  fields.any (fun kv => kv.1 == name)

/-- The public key of a create result, when successful. -/
def resultKey (r : Except String PeerConfig) : Option String :=
  (Except.toOption r).map PeerConfig.publicKey

/-- The allocated address of a create result, when successful. -/
def resultIP (r : Except String PeerConfig) : Option String :=
  (Except.toOption r).map PeerConfig.ip

/-- The peer id of a create result, when successful. -/
def resultID (r : Except String PeerConfig) : Option String :=
  (Except.toOption r).map PeerConfig.id

/-- A concrete WireGuard configuration (the shipped config.json values). -/
def wgCfg0 : WireGuardConfig :=
  { configDir := "/config", dynamicPeerDir := "/config/dynamic-peers",
    listenPort := 51820, privateKey := "server-private-key",
    publicKey := "server-public-key", address := "10.0.0.1/24",
    dns := "1.1.1.1,8.8.8.8", serverIP := "10.0.0.1/24",
    serverEndpoint := "auto", allowedIPs := "0.0.0.0/0,::/0" }

/-- A concrete whole configuration. -/
def cfg0 : Config := { wireGuard := wgCfg0 }

/-- A concrete peer manager. -/
def pmgr0 : PeerManager := NewPeerManager cfg0

/-- Oracle on which every apply succeeds, as in the src stub. -/
def envOk : Oracle :=
  { uuids := fun n => "peer-" ++ toString n, now := fun _ => 0,
    applyOk := fun _ => true }

/-- Oracle on which applying the configuration to the interface fails. -/
def envApplyFail : Oracle :=
  { uuids := fun n => "peer-" ++ toString n, now := fun _ => 0,
    applyOk := fun _ => false }

/-- A concrete template directory holding the generic template. -/
def templates0 : List (String × String) :=
  [("generic.conf",
    "[Interface]\nPrivateKey = \x7b\x7bPRIVATE_KEY\x7d\x7d\nAddress = \x7b\x7bCLIENT_IP\x7d\x7d\nDNS = \x7b\x7bDNS\x7d\x7d\n[Peer]\nPublicKey = \x7b\x7bSERVER_PUBLIC_KEY\x7d\x7d\nEndpoint = \x7b\x7bSERVER_ENDPOINT\x7d\x7d\nAllowedIPs = \x7b\x7bALLOWED_IPS\x7d\x7d\nPersistentKeepalive = \x7b\x7bPERSISTENT_KEEPALIVE\x7d\x7d\n")]

/-- The empty peer-manager state. -/
def emptyPM : PMState := { store := { static := [], dynamic := [] }, tick := 0 }

/-- First CreatePeer call on an empty store. -/
def createRun1 : Except String PeerConfig × PMState :=
  CreatePeer envOk pmgr0 emptyPM "alice" "server-1" "generic" "laptop"

/-- Second CreatePeer call, on the state left by the first. -/
def createRun2 : Except String PeerConfig × PMState :=
  CreatePeer envOk pmgr0 createRun1.2 "alice" "server-1" "generic" "phone"

/-- A stored static peer holding the address the mock allocator hands out. -/
def peerP1 : PeerConfig :=
  { id := "p1", userID := "alice", serverID := "server-1",
    deviceType := "generic", deviceName := "laptop", publicKey := "pk1",
    privateKey := "sk1", ip := "10.0.0.2/32", serverIP := "10.0.0.1/24",
    createdAt := 0, updatedAt := 0, dynamic := false }

/-- A second stored static peer on the same server, distinct address. -/
def peerP2 : PeerConfig :=
  { id := "p2", userID := "alice", serverID := "server-1",
    deviceType := "generic", deviceName := "phone", publicKey := "pk2",
    privateKey := "sk2", ip := "10.0.0.3/32", serverIP := "10.0.0.1/24",
    createdAt := 0, updatedAt := 0, dynamic := false }

/-- The store as found after a process restart: two previously created peers
with allocated addresses X = 10.0.0.2/32 and Y = 10.0.0.3/32. -/
def restartState : PMState :=
  { store := { static := [peerP1, peerP2], dynamic := [] }, tick := 0 }

/-- The first peer creation served after the restart, by a freshly
constructed peer manager over the pre-existing store. -/
def restartCreate : Except String PeerConfig × PMState :=
  CreatePeer envOk (NewPeerManager cfg0) restartState "bob" "server-1" "generic" "tablet"

/-- CreatePeer run on which applying the configuration fails. -/
def createFailRun : Except String PeerConfig × PMState :=
  CreatePeer envApplyFail pmgr0 emptyPM "alice" "server-1" "generic" "laptop"

/-- RemovePeer run on which applying the configuration fails. -/
def removeFailRun : Except String Unit × PMState :=
  RemovePeer envApplyFail { store := { static := [peerP1], dynamic := [] }, tick := 0 }
    "alice" "p1"

/-- A one-server registry (part_013 variant), online, load 0. -/
def sm0 : SM013 :=
  { servers := [("server-1",
      { id := "server-1", name := "US East", location := "New York",
        ip := "us-east.vpn-service.com", status := "online", load := 0 })] }

/-- Whole-system start state for orchestrator runs. -/
def vpn0 : VPNState := { sm := sm0, pm := emptyPM }

/-- Two successful Connect calls against the same server. -/
def twoConnects : VPNState :=
  runOps envOk templates0 pmgr0 vpn0
    [VPNOp.connect "alice" "server-1" "generic" "laptop",
     VPNOp.connect "bob" "server-1" "generic" "phone"]

/-- A registry in which server-1 carries load 2 (two active peers). -/
def smLoad2 : SM013 :=
  { servers := [("server-1",
      { id := "server-1", name := "US East", location := "New York",
        ip := "us-east.vpn-service.com", status := "online", load := 2 })] }

/-- State with two stored peers for server-1 and load 2. -/
def vpnLoad2 : VPNState :=
  { sm := smLoad2, pm := { store := { static := [peerP1, peerP2], dynamic := [] }, tick := 0 } }

/-- Disconnect of one of the two peers of server-1. -/
def disconnectRun : Except String Unit × VPNState :=
  Disconnect envOk vpnLoad2 "alice" "p1"

/-- A successful Connect run, for inspecting the returned peer value. -/
def connectRunC7 : Except String (PeerConfig × String) × VPNState :=
  Connect envOk templates0 pmgr0 vpn0 "alice" "server-1" "generic" "laptop"

/-- C1: two successful CreatePeer calls return peers with the same hardcoded
public key and the same allocated address (both records simultaneously in
the store), refuting pairwise distinctness; key generation returns a fixed
pair. -/
theorem createPeer_fixed_key_and_address_bug :
    resultKey createRun1.1 = some "zzz3UBcqiV9RsYCzJWOU5VVVNk3VtQECQXXPnQiEfQQ="
  ∧ resultKey createRun2.1 = some "zzz3UBcqiV9RsYCzJWOU5VVVNk3VtQECQXXPnQiEfQQ="
  ∧ resultIP createRun1.1 = some "10.0.0.2/32"
  ∧ resultIP createRun2.1 = some "10.0.0.2/32"
  ∧ resultID createRun1.1 ≠ resultID createRun2.1
  ∧ createRun2.2.store.static.length = 2
  ∧ generateKeyPair =
      ("YAnV4SnPYEA+jS6nQtxF5lS3jj0gqXBVVeP9tz/bP2A=",
       "zzz3UBcqiV9RsYCzJWOU5VVVNk3VtQECQXXPnQiEfQQ=") := by
  refine ⟨rfl, rfl, rfl, rfl, ?_, rfl, rfl⟩
  decide

/-- C5: starting from server-1 at load 2 with two active peers, a successful
Disconnect leaves the load at the absolute value 0, not at 2 - 1. -/
theorem disconnect_overwrites_load_to_zero_bug :
    disconnectRun.1 = Except.ok ()
  ∧ (smLoad2.servers.lookup "server-1").map Server013.load = some 2
  ∧ (disconnectRun.2.sm.servers.lookup "server-1").map Server013.load = some 0
  ∧ (0 : Int) ≠ 2 - 1 := by
  refine ⟨rfl, rfl, rfl, by decide⟩

/-- C6 counterexample: with the installed default servers, requesting the
optimal server for Japan returns the Tokyo server although its status is
maintenance, not online. -/
theorem getOptimalServer_returns_non_online_counterexample :
    (GetOptimalServer defaultServersB "Japan").toOption.map ServerB.status =
      some "maintenance"
  ∧ (some "maintenance" : Option String) ≠ some "online" := by
  refine ⟨rfl, by decide⟩

/-- C7 counterexample: the peer value returned by a successful Connect,
serialized to its JSON form, carries a privateKey field holding the peer
private key. -/
theorem connect_peer_json_has_private_key_counterexample :
    connectRunC7.1.toOption.map
        (fun r => jsonHasField (peerConfigJSONFields r.1) "privateKey") = some true
  ∧ connectRunC7.1.toOption.map
        (fun r => (peerConfigJSONFields r.1).lookup "privateKey") =
      some (some "YAnV4SnPYEA+jS6nQtxF5lS3jj0gqXBVVeP9tz/bP2A=") := by
  exact ⟨rfl, rfl⟩

/-- C2 counterexample: when applying the configuration fails, CreatePeer
returns the error yet the just-saved record is still retrievable from the
store, so a partial peer is left behind. -/
theorem createPeer_leftover_record_counterexample :
    createFailRun.1 = Except.error "failed to apply configuration"
  ∧ getPeerConfig createFailRun.2.store "alice" (envApplyFail.uuids 0) ≠ none := by
  refine ⟨rfl, ?_⟩
  decide

/-- C3 counterexample: when applying the configuration fails, RemovePeer
returns the error but the peer record has already been deleted from the
store, instead of remaining unchanged. -/
theorem removePeer_record_gone_on_apply_failure_counterexample :
    removeFailRun.1 = Except.error "failed to apply configuration"
  ∧ getPeerConfig removeFailRun.2.store "alice" "p1" = none := by
  exact ⟨rfl, rfl⟩

/-- C8: over a store already holding peers with addresses 10.0.0.2/32 and
10.0.0.3/32, a freshly constructed peer manager serves the very next
allocation with 10.0.0.2/32 again: no allocation state is reconstructed from
the store, and the new address collides with the stored one. -/
theorem restart_allocation_reuses_existing_address_bug :
    peerP1 ∈ restartState.store.static
  ∧ peerP1.ip = "10.0.0.2/32"
  ∧ peerP2 ∈ restartState.store.static
  ∧ peerP2.ip = "10.0.0.3/32"
  ∧ resultIP restartCreate.1 = some "10.0.0.2/32" := by
  refine ⟨by decide, rfl, by decide, rfl, rfl⟩

/-- C4 counterexample: two Connect calls against one online server drive its
load to 2, exceeding a fixed capacity of 1; no capacity check exists on this
path. -/
theorem connect_no_capacity_bound_counterexample :
    (twoConnects.sm.servers.lookup "server-1").map Server013.load = some 2
  ∧ ¬ ((2 : Int) ≤ 1) := by
  refine ⟨rfl, by decide⟩

/-- Finding under f in a list whose f-matches were filtered away, with the
record appended last, yields exactly that record. -/
theorem find_filter_append (l : List PeerConfig) (f : PeerConfig → Bool) (p : PeerConfig)
    (hp : f p = true) :
    (l.filter (fun q => !(f q)) ++ [p]).find? f = some p := by
  induction l with
  | nil => simp [List.find?, hp]
  | cons a l ih =>
    by_cases h : f a = true
    · rw [show (a :: l).filter (fun q => !(f q)) = l.filter (fun q => !(f q)) from by
        simp [List.filter_cons, h]]
      exact ih
    · rw [show (a :: l).filter (fun q => !(f q)) = a :: l.filter (fun q => !(f q)) from by
        simp [List.filter_cons, h],
        List.cons_append, List.find?_cons_of_neg _ h]
      exact ih

/-- C2 amended: when applying the configuration fails, CreatePeer returns the
apply error and the just-saved record is still in the store under its path
(no rollback happens). -/
theorem createPeer_apply_failure_leaves_record (env : Oracle) (pm : PeerManager)
    (st : PMState) (userID serverID deviceType deviceName : String)
    (hfail : env.applyOk st.tick = false) :
    (CreatePeer env pm st userID serverID deviceType deviceName).1 =
      Except.error "failed to apply configuration"
  ∧ getPeerConfig (CreatePeer env pm st userID serverID deviceType deviceName).2.store
      userID (env.uuids st.tick) ≠ none := by
  constructor
  · simp [CreatePeer, hfail]
  · simp only [CreatePeer, hfail, Bool.false_eq_true, if_false, getPeerConfig,
      savePeerConfig]
    rw [find_filter_append]
    · simp
    · simp [peerKeyMatches]

/-- Witness for the C2 amended theorem at a concrete failing apply. -/
theorem createPeer_apply_failure_leaves_record_witness :
    envApplyFail.applyOk 0 = false
  ∧ ((CreatePeer envApplyFail pmgr0 emptyPM "alice" "server-1" "generic" "laptop").1 =
        Except.error "failed to apply configuration"
    ∧ getPeerConfig (CreatePeer envApplyFail pmgr0 emptyPM
        "alice" "server-1" "generic" "laptop").2.store
        "alice" (envApplyFail.uuids 0) ≠ none) :=
  ⟨rfl, createPeer_apply_failure_leaves_record envApplyFail pmgr0 emptyPM
    "alice" "server-1" "generic" "laptop" rfl⟩

/-- C3 amended: when applying the configuration fails during RemovePeer, the
error is returned but the peer record was already deleted from the store
beforehand, so it does not remain. -/
theorem removePeer_apply_failure_record_deleted (env : Oracle) (st : PMState)
    (userID peerID : String) (peer : PeerConfig)
    (hget : getPeerConfig st.store userID peerID = some peer)
    (hfail : env.applyOk st.tick = false) :
    (RemovePeer env st userID peerID).1 =
      Except.error "failed to apply configuration"
  ∧ getPeerConfig (RemovePeer env st userID peerID).2.store userID peerID = none := by
  have hget' : st.store.static.find? (peerKeyMatches userID peerID) = some peer := hget
  have hmatch : peerKeyMatches userID peerID peer = true := List.find?_some hget'
  have hmem : peer ∈ st.store.static := List.mem_of_find?_eq_some hget'
  have huid : peer.userID = userID := by
    have h := hmatch
    simp only [peerKeyMatches, Bool.and_eq_true, beq_iff_eq] at h
    exact h.1
  have hid : peer.id = peerID := by
    have h := hmatch
    simp only [peerKeyMatches, Bool.and_eq_true, beq_iff_eq] at h
    exact h.2
  have hany : st.store.static.any (peerKeyMatches peer.userID peer.id) = true := by
    apply List.any_eq_true.mpr
    exact ⟨peer, hmem, by simp [peerKeyMatches]⟩
  have hdel : deletePeerConfig st.store peer = some (PeerStore.mk
      (st.store.static.filter (fun q => !(peerKeyMatches peer.userID peer.id q)))
      st.store.dynamic) := by
    simp [deletePeerConfig, hany]
  have hnone : getPeerConfig (PeerStore.mk
      (st.store.static.filter (fun q => !(peerKeyMatches peer.userID peer.id q)))
      st.store.dynamic) userID peerID = none := by
    apply List.find?_eq_none.mpr
    intro q hq
    rw [List.mem_filter] at hq
    rw [huid, hid] at hq
    simpa using hq.2
  constructor
  · simp only [RemovePeer, hget, hdel, hfail, Bool.false_eq_true, if_false]
  · simp only [RemovePeer, hget, hdel, hfail, Bool.false_eq_true, if_false]
    exact hnone

/-- Witness for the C3 amended theorem at a concrete failing apply. -/
theorem removePeer_apply_failure_record_deleted_witness :
    getPeerConfig { static := [peerP1], dynamic := [] } "alice" "p1" = some peerP1
  ∧ ((RemovePeer envApplyFail
        { store := { static := [peerP1], dynamic := [] }, tick := 0 } "alice" "p1").1 =
      Except.error "failed to apply configuration"
    ∧ getPeerConfig (RemovePeer envApplyFail
        { store := { static := [peerP1], dynamic := [] }, tick := 0 } "alice" "p1").2.store
        "alice" "p1" = none) :=
  ⟨rfl, removePeer_apply_failure_record_deleted envApplyFail
    { store := { static := [peerP1], dynamic := [] }, tick := 0 } "alice" "p1" peerP1
    rfl rfl⟩

/-- All registered servers carry nonnegative load. -/
def loadsNonneg (sm : SM013) : Prop :=
  ∀ kv ∈ sm.servers, 0 ≤ kv.2.load

/-- Overwriting one load with a nonnegative value keeps all loads
nonnegative. -/
theorem setServerLoad_nonneg (servers : List (String × Server013)) (id : String)
    (v : Int) (hv : 0 ≤ v) (h : ∀ kv ∈ servers, 0 ≤ kv.2.load) :
    ∀ kv ∈ setServerLoad servers id v, 0 ≤ kv.2.load := by
  intro kv hkv
  rw [setServerLoad, List.mem_map] at hkv
  obtain ⟨ab, hab, rfl⟩ := hkv
  by_cases hid : (ab.1 == id) = true
  · simp only [hid, if_true]
    exact hv
  · simp only [hid, if_false]
    exact h ab hab

/-- UpdateServerLoad with a nonnegative value preserves the invariant. -/
theorem updateServerLoad013_nonneg (sm : SM013) (id : String) (v : Int)
    (hv : 0 ≤ v) (h : loadsNonneg sm) :
    loadsNonneg (UpdateServerLoad013 sm id v).2 := by
  unfold UpdateServerLoad013
  split
  · exact setServerLoad_nonneg sm.servers id v hv h
  · exact h

/-- A looked-up server of an invariant-satisfying registry has nonnegative
load. -/
theorem lookup_nonneg (l : List (String × Server013)) (id : String) (s : Server013)
    (hl : l.lookup id = some s) (h : ∀ kv ∈ l, 0 ≤ kv.2.load) : 0 ≤ s.load := by
  induction l with
  | nil => simp [List.lookup] at hl
  | cons a l ih =>
    obtain ⟨k, v⟩ := a
    rw [List.lookup] at hl
    cases hbeq : (id == k) with
    | true =>
      simp only [hbeq] at hl
      injection hl with hv
      rw [← hv]
      exact h (k, v) (List.mem_cons_self _ _)
    | false =>
      simp only [hbeq] at hl
      exact ih hl (fun kv hkv => h kv (List.mem_cons_of_mem _ hkv))

/-- The server a successful GetServer returns has nonnegative load. -/
theorem getServer013_ok_load_nonneg (sm : SM013) (id : String) (server : Server013)
    (h : GetServer013 sm id = Except.ok server) (hnn : loadsNonneg sm) :
    0 ≤ server.load := by
  have hlk : sm.servers.lookup id = some server := by
    unfold GetServer013 at h
    cases hbeq : sm.servers.lookup id with
    | none =>
      simp only [hbeq] at h
      exact Except.noConfusion h
    | some s =>
      simp only [hbeq] at h
      cases h
      rfl
  exact lookup_nonneg sm.servers id server hlk hnn

/-- Connect preserves nonnegative loads. -/
theorem connect_preserves_loadsNonneg (env : Oracle) (templates : List (String × String))
    (pmgr : PeerManager) (st : VPNState) (u sid dt dn : String)
    (h : loadsNonneg st.sm) :
    loadsNonneg ((Connect env templates pmgr st u sid dt dn).2).sm := by
  unfold Connect
  split
  · exact h
  · rename_i server heq
    split
    · exact h
    · split
      · exact h
      · split
        · exact h
        · show loadsNonneg (UpdateServerLoad013 st.sm sid (server.load + 1)).2
          refine updateServerLoad013_nonneg st.sm sid (server.load + 1) ?_ h
          have hl := getServer013_ok_load_nonneg st.sm sid server heq h
          omega

/-- DynamicConnect preserves nonnegative loads. -/
theorem dynamicConnect_preserves_loadsNonneg (env : Oracle)
    (templates : List (String × String)) (pmgr : PeerManager) (st : VPNState)
    (u sid dt dn : String) (h : loadsNonneg st.sm) :
    loadsNonneg ((DynamicConnect env templates pmgr st u sid dt dn).2).sm := by
  unfold DynamicConnect
  split
  · exact h
  · rename_i server heq
    split
    · exact h
    · split
      · exact h
      · split
        · exact h
        · show loadsNonneg (UpdateServerLoad013 st.sm sid (server.load + 1)).2
          refine updateServerLoad013_nonneg st.sm sid (server.load + 1) ?_ h
          have hl := getServer013_ok_load_nonneg st.sm sid server heq h
          omega

/-- Disconnect preserves nonnegative loads. -/
theorem disconnect_preserves_loadsNonneg (env : Oracle) (st : VPNState)
    (u pid : String) (h : loadsNonneg st.sm) :
    loadsNonneg ((Disconnect env st u pid).2).sm := by
  unfold Disconnect
  split
  · exact h
  · rename_i peer heq
    split
    · exact h
    · show loadsNonneg (UpdateServerLoad013 st.sm peer.serverID 0).2
      exact updateServerLoad013_nonneg st.sm peer.serverID 0 le_rfl h

/-- DynamicDisconnect preserves nonnegative loads. -/
theorem dynamicDisconnect_preserves_loadsNonneg (env : Oracle) (st : VPNState)
    (u pid : String) (h : loadsNonneg st.sm) :
    loadsNonneg ((DynamicDisconnect env st u pid).2).sm := by
  unfold DynamicDisconnect
  split
  · exact h
  · rename_i peer heq
    split
    · exact h
    · show loadsNonneg (UpdateServerLoad013 st.sm peer.serverID 0).2
      exact updateServerLoad013_nonneg st.sm peer.serverID 0 le_rfl h

/-- Every single orchestrator operation preserves nonnegative loads. -/
theorem stepOp_preserves_loadsNonneg (env : Oracle) (templates : List (String × String))
    (pmgr : PeerManager) (st : VPNState) (op : VPNOp) (h : loadsNonneg st.sm) :
    loadsNonneg (stepOp env templates pmgr st op).sm := by
  cases op with
  | connect u s dt dn => exact connect_preserves_loadsNonneg env templates pmgr st u s dt dn h
  | disconnect u p => exact disconnect_preserves_loadsNonneg env st u p h
  | dynamicConnect u s dt dn =>
    exact dynamicConnect_preserves_loadsNonneg env templates pmgr st u s dt dn h
  | dynamicDisconnect u p => exact dynamicDisconnect_preserves_loadsNonneg env st u p h

/-- C4 amended: under any sequence of Connect / Disconnect operations the
load of every server stays nonnegative (there is no upper capacity bound in
this code path: Connect checks no capacity, as the counterexample shows). -/
theorem runOps_loads_nonneg (env : Oracle) (templates : List (String × String))
    (pmgr : PeerManager) (ops : List VPNOp) (st : VPNState)
    (h : loadsNonneg st.sm) :
    loadsNonneg (runOps env templates pmgr st ops).sm := by
  induction ops generalizing st with
  | nil => exact h
  | cons op ops ih =>
    rw [runOps, List.foldl_cons]
    exact ih (stepOp env templates pmgr st op)
      (stepOp_preserves_loadsNonneg env templates pmgr st op h)

/-- Witness for the C4 amended theorem on a concrete two-connect run. -/
theorem runOps_loads_nonneg_witness :
    loadsNonneg (runOps envOk templates0 pmgr0 vpn0
      [VPNOp.connect "alice" "server-1" "generic" "laptop",
       VPNOp.connect "bob" "server-1" "generic" "phone",
       VPNOp.disconnect "alice" "peer-0"]).sm :=
  runOps_loads_nonneg envOk templates0 pmgr0
    [VPNOp.connect "alice" "server-1" "generic" "laptop",
     VPNOp.connect "bob" "server-1" "generic" "phone",
     VPNOp.disconnect "alice" "peer-0"] vpn0
    (by unfold loadsNonneg; decide)

/-- The lowest-load scan only ever returns its seed or a scanned server that
is strictly below capacity. -/
theorem optimalStep_fold_result (cands : List ServerB) (acc : Option ServerB × Int)
    (s : ServerB) (h : (cands.foldl optimalStep acc).1 = some s) :
    acc.1 = some s ∨ (s ∈ cands ∧ s.load < s.capacity) := by
  induction cands generalizing acc with
  | nil => exact Or.inl h
  | cons a l ih =>
    rw [List.foldl_cons] at h
    rcases ih (optimalStep acc a) h with h1 | h2
    · unfold optimalStep at h1
      by_cases hc : a.load ≥ a.capacity
      · rw [if_pos hc] at h1
        exact Or.inl h1
      · rw [if_neg hc] at h1
        by_cases hc2 : (acc.2 == -1 || decide (a.load < acc.2)) = true
        · rw [if_pos hc2] at h1
          injection h1 with h1
          subst h1
          exact Or.inr ⟨List.mem_cons_self _ _, lt_of_not_ge hc⟩
        · rw [if_neg hc2] at h1
          exact Or.inl h1
    · exact Or.inr ⟨List.mem_cons_of_mem _ h2.1, h2.2⟩

/-- The selection tail of GetOptimalServer returns a candidate strictly below
capacity whenever it succeeds. -/
theorem select_mem (cands : List ServerB) (s : ServerB)
    (h : (if cands.isEmpty then (Except.error "no available servers" : Except String ServerB)
          else match (cands.foldl optimalStep (none, -1)).1 with
            | none => Except.error "all servers are at capacity"
            | some sv => Except.ok sv) = Except.ok s) :
    s ∈ cands ∧ s.load < s.capacity := by
  by_cases he : cands.isEmpty
  · rw [if_pos he] at h
    exact Except.noConfusion h
  · rw [if_neg he] at h
    cases hf : (cands.foldl optimalStep (none, -1)).1 with
    | none =>
      simp only [hf] at h
      exact Except.noConfusion h
    | some sv =>
      simp only [hf] at h
      injection h with hsv
      rcases optimalStep_fold_result cands (none, -1) sv hf with h1 | h2
      · exact Option.noConfusion h1
      · rw [← hsv]
        exact h2

/-- C6 amended: a successful GetOptimalServer result is always strictly below
capacity, and is either a server of the requested country regardless of its
status (country candidates are not status-filtered, and the fallback fires
only when the country has no servers at all) or an online server. -/
theorem getOptimalServer_ok_properties (servers : List ServerB) (country : String)
    (s : ServerB) (h : GetOptimalServer servers country = Except.ok s) :
    s.load < s.capacity ∧ ((country ≠ "" ∧ s.country = country) ∨ s.status = "online") := by
  unfold GetOptimalServer at h
  simp only [] at h
  have hm := select_mem _ _ h
  refine ⟨hm.2, ?_⟩
  have hmem := hm.1
  by_cases hc : (country != "") = true
  · rw [if_pos hc] at hmem
    by_cases hb : (GetServersByCountry servers country).isEmpty = true
    · rw [if_pos hb] at hmem
      right
      have hs := List.mem_filter.mp hmem
      simpa using hs.2
    · rw [if_neg hb] at hmem
      left
      constructor
      · simpa using hc
      · rw [GetServersByCountry] at hmem
        have hs := List.mem_filter.mp hmem
        simpa using hs.2
  · rw [if_neg hc] at hmem
    right
    have hs := List.mem_filter.mp hmem
    simpa using hs.2

/-- Witness for the C6 amended theorem: with no preferred country the
selection over the installed servers returns us-east-1, which is online and
below capacity. -/
theorem getOptimalServer_ok_properties_witness :
    usEast1B.load < usEast1B.capacity
  ∧ (("" : String) ≠ "" ∧ usEast1B.country = "" ∨ usEast1B.status = "online") :=
  getOptimalServer_ok_properties defaultServersB "" usEast1B rfl

/-- C7 amended: the JSON form of a PeerConfig always carries a privateKey
field (and the admin user-peers body therefore exposes it for every listed
peer), while the ConnectResponse and PeerInfo response objects never carry a
private-key field. -/
theorem private_key_exposure_surface (p : PeerConfig) (peers : List PeerConfig)
    (config qrCode peerID serverIP : String)
    (id serverID serverName deviceType deviceName ip createdAt lastSeen
      bytesRx bytesTx : String) :
    jsonHasField (peerConfigJSONFields p) "privateKey" = true
  ∧ jsonHasField (connectResponseJSONFields config qrCode peerID serverIP)
      "privateKey" = false
  ∧ jsonHasField (peerInfoJSONFields id serverID serverName deviceType deviceName ip
      createdAt lastSeen bytesRx bytesTx) "privateKey" = false
  ∧ ∀ fields ∈ getUserPeersResponseJSON peers, jsonHasField fields "privateKey" = true := by
  refine ⟨rfl, rfl, rfl, ?_⟩
  intro fields hf
  rw [getUserPeersResponseJSON, List.mem_map] at hf
  obtain ⟨q, _, rfl⟩ := hf
  rfl

/-- C9: GenerateConfig is a pure function of the device type, private key and
address of the peer together with the server attributes: any two peer records
agreeing on those three fields render to identical configuration text. -/
theorem generateConfig_pure (templates : List (String × String)) (pm : PeerManager)
    (p q : PeerConfig) (hdt : p.deviceType = q.deviceType)
    (hpk : p.privateKey = q.privateKey) (hip : p.ip = q.ip) :
    GenerateConfig templates pm p = GenerateConfig templates pm q := by
  simp only [GenerateConfig, hdt, hpk, hip]

/-- A peer record sharing device type, private key and address with peerP1
but differing everywhere else. -/
def peerQ9 : PeerConfig :=
  { id := "q9", userID := "carol", serverID := "server-2",
    deviceType := "generic", deviceName := "desk", publicKey := "pk9",
    privateKey := "sk1", ip := "10.0.0.2/32", serverIP := "10.0.0.9/24",
    createdAt := 99, updatedAt := 100, dynamic := true }

/-- Witness for C9 at two concrete distinct records that agree on the
rendered fields. -/
theorem generateConfig_pure_witness :
    peerP1 ≠ peerQ9
  ∧ GenerateConfig templates0 pmgr0 peerP1 = GenerateConfig templates0 pmgr0 peerQ9 :=
  ⟨by decide, generateConfig_pure templates0 pmgr0 peerP1 peerQ9 rfl rfl rfl⟩

/-- C10: when a user has no stored peer records in either namespace, GetPeers
returns the empty list with no error, not a not-found error. -/
theorem getPeers_empty_when_no_records (store : PeerStore) (userID : String)
    (hs : ∀ p ∈ store.static, p.userID ≠ userID)
    (hd : ∀ p ∈ store.dynamic, p.userID ≠ userID) :
    GetPeers store userID = Except.ok [] := by
  have h1 : getStaticPeers store userID = [] := by
    rw [getStaticPeers]
    rw [List.filter_eq_nil_iff]
    intro a ha
    simpa using hs a ha
  have h2 : getDynamicPeers store userID = [] := by
    rw [getDynamicPeers]
    rw [List.filter_eq_nil_iff]
    intro a ha
    simpa using hd a ha
  rw [GetPeers, h1, h2]
  rfl

/-- Witness for C10: the restart store holds only records of user alice, so
user bob gets the empty list. -/
theorem getPeers_empty_when_no_records_witness :
    GetPeers restartState.store "bob" = Except.ok [] :=
  getPeers_empty_when_no_records restartState.store "bob" (by decide) (by decide)
